import Mathlib

/-!
Verification development for the pdf_agent repository (src/pdf_agent.py,
src/app.py): a shallow embedding of the conversion pipeline, the renderer
and distributor helpers, and the web layer's session and background
conversion functions, together with theorems settling the specification's
claims about them.

External effects (subprocess exit codes, HTTP responses, SMTP, file reads
and writes, LLM completions) are passed in as explicit oracle values, so
every definition is executable; control flow is translated line by line
from the Python source.  A Python function that catches all exceptions and
returns False is modelled as a total function returning false on the
corresponding oracle outcome.
-/

namespace PdfAgent

/-- Document formats recognised by `detect_file_type` in pdf_agent.py. -/
inductive FileType
  | latex
  | markdown
deriving DecidableEq, Repr

/-- String attached to a `FileType` when the Python code passes the format
around as a string ('latex' / 'markdown'). -/
def ftString : FileType → String
  | .latex => "latex"
  | .markdown => "markdown"

/-- Boolean test that `pat` is an initial run of `s` (character lists). -/
def charsMatchAt : List Char → List Char → Bool
  | _, [] => true
  | [], _ :: _ => false
  | c :: cs, p :: ps => c == p && charsMatchAt cs ps

/-- Boolean substring search: does `pat` occur contiguously inside `s`?
Models Python's `pat in s` on strings. -/
def charsHaveRun : List Char → List Char → Bool
  | [], pat => charsMatchAt [] pat
  | s@(_ :: t), pat => charsMatchAt s pat || charsHaveRun t pat

/-- Models Python's `sub in s` for strings. -/
def strOccurs (sub s : String) : Bool :=
  charsHaveRun s.toList sub.toList

/-- The `'\documentclass' in content or '\begin{document}' in content`
test of detect_file_type (pdf_agent.py line 117), applied as in the source
to the first 1000 characters read from the file. -/
def hasLatexMarker (full : String) : Bool :=
  let c := full.toList.take 1000
  charsHaveRun c ("\\documentclass".toList) ||
    charsHaveRun c ("\\begin\x7bdocument\x7d".toList)

/-- The `content.startswith('#') or '##' in content` test of
detect_file_type (pdf_agent.py line 119), applied to the first 1000
characters read from the file. -/
def hasMarkdownMarker (full : String) : Bool :=
  let c := full.toList.take 1000
  (match c with
   | [] => false
   | ch :: _ => ch == '#') || charsHaveRun c ("##".toList)

/-- Python's `s.lower()` on a string, as a character list (Lean's
String.toLower does not reduce in the kernel, so the lowering is done on
the underlying characters). -/
def strLower (s : String) : List Char :=
  s.toList.map Char.toLower

/-- PDFAgent.detect_file_type (pdf_agent.py lines 103-124).  `ext` is the
path's suffix; `content` is the file's text, `none` when reading raises
(the except branch logs and the function returns None). -/
def detect_file_type (ext : String) (content : Option String) : Option FileType :=
  let e := strLower ext
  if e ∈ [".tex".toList, ".latex".toList] then some .latex
  else if e ∈ [".md".toList, ".markdown".toList] then some .markdown
  else
    match content with
    | none => none
    | some full =>
      if hasLatexMarker full then some .latex
      else if hasMarkdownMarker full then some .markdown
      else none

/-- The `pandoc` section of the configuration (pdf_agent.py lines 50-54).
A template is "truthy" for the `if self.config['pandoc']['template']:`
check only when present and non-empty. -/
structure PandocConfig where
  engine : String
  template : Option String
  options : List String
deriving DecidableEq, Repr

/-- Python truthiness of the configured pandoc template. -/
def templateTruthy : Option String → Bool
  | none => false
  | some t => !(t == "")

/-- The `overleaf` section of the configuration (pdf_agent.py lines 55-59). -/
structure OverleafConfig where
  api_url : String
  api_key : String
  project_id : String
deriving DecidableEq, Repr

/-- The `email` section of the configuration (pdf_agent.py lines 60-67). -/
structure EmailConfig where
  smtp_server : String
  smtp_port : Nat
  username : String
  password : String
  from_email : String
  to_email : String
deriving DecidableEq, Repr

/-- The `n8n` section of the configuration (pdf_agent.py lines 68-71). -/
structure N8nConfig where
  webhook_url : String
  api_key : String
deriving DecidableEq, Repr

/-- The `openai` section of the configuration (pdf_agent.py lines 72-77). -/
structure OpenAIConfig where
  api_key : String
  model : String
  temperature : Nat
  max_tokens : Nat
deriving DecidableEq, Repr

/-- The whole PDFAgent configuration record (pdf_agent.py lines 49-82;
the `output` section's directory and filename template only shape the
output path, which the embedding passes around as an explicit string). -/
structure Config where
  pandoc : PandocConfig
  overleaf : OverleafConfig
  email : EmailConfig
  n8n : N8nConfig
  openai : OpenAIConfig
deriving DecidableEq, Repr

/-- The pandoc command line built by PDFAgent.convert_with_pandoc
(pdf_agent.py lines 133-147): base command, `--pdf-engine` (added by both
the latex and the markdown branch alike), the configured extra options,
and `--template` when a template is configured (Python truthiness). -/
def buildPandocCmd (cfg : PandocConfig) (input_file output_file : String) :
    List String :=
  let cmd := ["pandoc", input_file, "-o", output_file]
  let cmd := cmd ++ ["--pdf-engine", cfg.engine]
  let cmd := cmd ++ cfg.options
  if templateTruthy cfg.template then
    cmd ++ ["--template", cfg.template.getD ""]
  else cmd

/-- PDFAgent.convert_with_pandoc (pdf_agent.py lines 126-163).  `run`
is the subprocess oracle: `run c = true` means the invocation of command
`c` exits with code 0 (an exception while running is the same as a
non-zero exit: the except branch returns False).  The function builds one
command, runs it once and returns that run's result; the second component
records the list of commands actually invoked.  `file_type` is accepted
as in the source but both of its branches add the same engine flag. -/
def convert_with_pandoc (run : List String → Bool) (cfg : PandocConfig)
    (input_file output_file file_type : String) : Bool × List (List String) :=
  let _ := file_type
  let cmd := buildPandocCmd cfg input_file output_file
  (run cmd, [cmd])

/-- Oracle outcomes for the external effects of
PDFAgent.convert_with_overleaf (pdf_agent.py lines 165-203). -/
structure OverleafWorld where
  /-- reading the LaTeX input file succeeds (line 173) -/
  readInputOk : Bool
  /-- the compile POST returns HTTP 200 (line 185) -/
  postStatus200 : Bool
  /-- the 200 response's JSON carries a pdf_url (line 189) -/
  pdfUrlPresent : Bool
  /-- the GET of the pdf_url returns HTTP 200 (line 191) -/
  getStatus200 : Bool
  /-- writing the downloaded bytes to the output file succeeds (line 193) -/
  writeOutOk : Bool
deriving DecidableEq, Repr

/-- PDFAgent.convert_with_overleaf (pdf_agent.py lines 165-203).  Returns
(success, httpAttempted): with no API key configured the function logs a
warning and returns False before any network call; any failure along the
POST/pdf_url/GET/write chain also returns False (exceptions are caught
and turned into False by the except branch). -/
def convert_with_overleaf (cfg : OverleafConfig) (w : OverleafWorld) :
    Bool × Bool :=
  if cfg.api_key == "" then (false, false)
  else if !w.readInputOk then (false, false)
  else if w.postStatus200 then
    if w.pdfUrlPresent then
      if w.getStatus200 then (w.writeOutOk, true)
      else (false, true)
    else (false, true)
  else (false, true)

/-- Python truthiness test of `all([username, password, to_email])` in
PDFAgent.send_email (pdf_agent.py lines 208-210): all three strings
non-empty. -/
def emailConfigComplete (e : EmailConfig) : Bool :=
  !(e.username == "") && !(e.password == "") && !(e.to_email == "")

/-- Observable outcome of one PDFAgent.send_email call. -/
structure SendEmailResult where
  /-- the Boolean the function returns -/
  returned : Bool
  /-- an SMTP session was opened and a send attempted -/
  attemptedSend : Bool
  /-- the address the message was sent to, when a send was attempted -/
  sentTo : Option String
  /-- the call raised an exception past its own boundary -/
  raised : Bool
deriving DecidableEq, Repr

/-- PDFAgent.send_email (pdf_agent.py lines 205-250).  `smtpOk` is the
oracle for the SMTP login/send succeeding; any exception is caught inside
the function and turned into a False return, so `raised` is always false.
With an incomplete configuration the function logs a warning and returns
False without attempting a send.  The destination is always the
configured `to_email`: the function has no recipient parameter. -/
def send_email (cfg : EmailConfig) (smtpOk : Bool) : SendEmailResult :=
  if !emailConfigComplete cfg then
    ⟨false, false, none, false⟩
  else
    ⟨smtpOk, true, some cfg.to_email, false⟩

/-- Observable outcome of one PDFAgent.trigger_n8n_workflow call. -/
structure WebhookResult where
  /-- the Boolean the function returns -/
  returned : Bool
  /-- an HTTP POST to the webhook URL was attempted -/
  posted : Bool
  /-- the call raised an exception past its own boundary -/
  raised : Bool
deriving DecidableEq, Repr

/-- PDFAgent.trigger_n8n_workflow (pdf_agent.py lines 252-286).
`status200` is the oracle for the POST returning HTTP 200; exceptions are
caught inside the function.  With no webhook URL configured the function
logs a warning and returns False without posting. -/
def trigger_n8n_workflow (cfg : N8nConfig) (status200 : Bool) : WebhookResult :=
  if cfg.webhook_url == "" then ⟨false, false, false⟩
  else ⟨status200, true, false⟩

/-- Tag for the six prompt templates of the `style_prompts` dictionary in
PDFAgent.refine_academic_writing (pdf_agent.py lines 296-352); each tag
stands for the corresponding fixed instruction text. -/
inductive StyleProfile
  | formal
  | ieee
  | acm
  | springer
  | elsevier
  | nature
deriving DecidableEq, Repr

/-- The `style_prompts` dictionary keys in source order (pdf_agent.py
lines 296-352), as an association list. -/
def style_prompts : List (String × StyleProfile) :=
  [("formal", .formal), ("ieee", .ieee), ("acm", .acm),
   ("springer", .springer), ("elsevier", .elsevier), ("nature", .nature)]

/-- The `style_prompts.get(journal_style, style_prompts["formal"])` lookup
(pdf_agent.py line 355): dictionary lookup with the formal profile as the
default. -/
def selectedStyleProfile (journal_style : String) : StyleProfile :=
  (style_prompts.lookup journal_style).getD .formal

/-- Result of PDFAgent.refine_academic_writing: either the `{"error": msg}`
dictionary or the success dictionary whose relevant fields are the prompt
profile that was used, the model's text, and the journal_style tag. -/
inductive RefineResult
  | err (msg : String)
  | ok (profile : StyleProfile) (refined_content : String) (journal_style : String)
deriving DecidableEq, Repr

/-- PDFAgent.refine_academic_writing (pdf_agent.py lines 288-405).
`api_key` is the configured OpenAI key (empty string models a missing
key: falsy in `if not self.config.get('openai', \x7b\x7d).get('api_key')`);
`llmOutput` is the completion oracle, `none` when the API call raises
(the except branch returns the error dictionary). -/
def refine_academic_writing (api_key : String) (llmOutput : Option String)
    (content file_type journal_style : String) : RefineResult :=
  let _ := content
  let _ := file_type
  if api_key == "" then .err "OpenAI API key not configured"
  else
    match llmOutput with
    | none => .err "exception from the OpenAI call"
    | some t => .ok (selectedStyleProfile journal_style) t journal_style

/-- The conversion block of PDFAgent.process_file (pdf_agent.py lines
473-481): Overleaf first when the file is LaTeX and `use_overleaf` is
set, pandoc as the fallback, plain pandoc otherwise.  Returns
(success, overleafTried, pandocTried). -/
def renderPhase (cfg : Config) (olW : OverleafWorld)
    (runPandoc : List String → Bool) (ft : FileType) (use_overleaf : Bool)
    (input_file output_file : String) : Bool × Bool × Bool :=
  if ft == .latex && use_overleaf then
    let olOk := (convert_with_overleaf cfg.overleaf olW).1
    if olOk then (true, true, false)
    else
      ((convert_with_pandoc runPandoc cfg.pandoc input_file output_file
          (ftString ft)).1, true, true)
  else
    ((convert_with_pandoc runPandoc cfg.pandoc input_file output_file
        (ftString ft)).1, false, true)

/-- Observable outcome of one PDFAgent.process_file call. -/
structure ProcessResult where
  /-- the Boolean the function returns -/
  success : Bool
  /-- convert_with_overleaf was called -/
  overleafTried : Bool
  /-- convert_with_pandoc was called -/
  pandocTried : Bool
  /-- result of the send_email call, `none` when no call was made -/
  emailResult : Option SendEmailResult
  /-- result of the trigger_n8n_workflow call, `none` when none was made -/
  webhookResult : Option WebhookResult
deriving DecidableEq, Repr

/-- PDFAgent.process_file (pdf_agent.py lines 447-510).  `fileExists`
models the `os.path.exists` check; `ext`/`content` feed
detect_file_type; `smtpOk`/`wh200` are the delivery oracles.  The output
path (built at lines 464-471 from the configured directory, the input
stem and a timestamp) is passed in as `output_file`.  The return values
of send_email and trigger_n8n_workflow are discarded by the source; the
function returns True whenever the conversion succeeded. -/
def process_file (cfg : Config) (fileExists : Bool) (olW : OverleafWorld)
    (runPandoc : List String → Bool) (smtpOk wh200 : Bool)
    (ext : String) (content : Option String)
    (use_overleaf send_email_flag trigger_n8n_flag : Bool)
    (input_file output_file : String) : ProcessResult :=
  if !fileExists then ⟨false, false, false, none, none⟩
  else
    match detect_file_type ext content with
    | none => ⟨false, false, false, none, none⟩
    | some ft =>
      let r := renderPhase cfg olW runPandoc ft use_overleaf input_file output_file
      if !r.1 then ⟨false, r.2.1, r.2.2, none, none⟩
      else
        let e := if send_email_flag then some (send_email cfg.email smtpOk) else none
        let n := if trigger_n8n_flag then some (trigger_n8n_workflow cfg.n8n wh200) else none
        ⟨true, r.2.1, r.2.2, e, n⟩

/-- PDFAgent.process_file_with_refinement (pdf_agent.py lines 407-445).
Reads the original file (`content`, `none` when the read raises), detects
the type, refines the text, writes the refined file (`writeOk` oracle),
then hands the refined file to process_file.  The refined file keeps the
input's suffix, so the same `ext` is used for re-detection.  The second
component of the result is process_file's outcome when it was invoked at
all. -/
def process_file_with_refinement (cfg : Config) (fileExists : Bool)
    (olW : OverleafWorld) (runPandoc : List String → Bool)
    (smtpOk wh200 : Bool) (ext : String) (content : Option String)
    (llmOutput : Option String) (writeOk : Bool) (journal_style : String)
    (use_overleaf send_email_flag trigger_n8n_flag : Bool)
    (refined_file output_file : String) : Bool × Option ProcessResult :=
  match content with
  | none => (false, none)
  | some original =>
    match detect_file_type ext (some original) with
    | none => (false, none)
    | some ft =>
      match refine_academic_writing cfg.openai.api_key llmOutput original
          (ftString ft) journal_style with
      | .err _ => (false, none)
      | .ok _ refined _ =>
        if !writeOk then (false, none)
        else
          let r := process_file cfg fileExists olW runPandoc smtpOk wh200 ext
            (some refined) use_overleaf send_email_flag trigger_n8n_flag
            refined_file output_file
          (r.success, some r)

/-- Status values that app.py stores in a file entry's `status` field or
emits in `conversion_status` events ('uploaded', 'processing',
'completed', 'failed'); `queued` is the specification's name for the
pre-processing state and never occurs in the source. -/
inductive JobState
  | uploaded
  | queued
  | processing
  | completed
  | failed
deriving DecidableEq, Repr

/-- Observed state sequence produced by process_conversion (app.py lines
335-392) for one request: the 'processing' status event (line 339), then
— depending on `result`, the outcome of `agent.process_file` as seen by
the background thread (`some b` = returned `b`, `none` = the try body
raised and the except branch ran) — the terminal status-field write and
the terminal status event. -/
def process_conversion_trace (result : Option Bool) : List JobState :=
  JobState.processing ::
    (match result with
     | some true => [.completed, .completed]
     | some false => [.failed, .failed]
     | none => [.failed, .failed])

/-- Observed state sequence of one conversion request: convert_file
(app.py line 315) sets the file's status field to 'processing' before
starting the background thread, which then produces
process_conversion_trace. -/
def convert_file_trace (result : Option Bool) : List JobState :=
  JobState.processing :: process_conversion_trace result

/-- Collapse consecutive duplicate states, keeping the sequence of
distinct states actually traversed. -/
def dedupConsec : List JobState → List JobState
  | [] => []
  | [a] => [a]
  | a :: b :: rest =>
    if a == b then dedupConsec (b :: rest) else a :: dedupConsec (b :: rest)

/-- One session record of the global `sessions` table (app.py lines
94-103); the fields not inspected by any claim (timestamps, analysis
results) are omitted. -/
structure SessionRec where
  id : String
  files : List String
  status : String
  dismissed_updates : List String
deriving DecidableEq, Repr

/-- The fresh session dictionary that get_session installs for an unknown
id (app.py lines 95-103). -/
def freshSession (session_id : String) : SessionRec :=
  ⟨session_id, [], "active", []⟩

/-- get_session (app.py lines 92-104): look the id up in the sessions
table and, when absent, create and install a fresh session ("Get or
create a session").  Returns the session together with the updated
table. -/
def get_session (sessions : List (String × SessionRec)) (session_id : String) :
    SessionRec × List (String × SessionRec) :=
  match sessions.lookup session_id with
  | some s => (s, sessions)
  | none => (freshSession session_id,
      sessions ++ [(session_id, freshSession session_id)])

/-- get_session_info, the `/api/session/<session_id>` route (app.py lines
407-411): calls get_session and returns the session as JSON.  The first
component is the HTTP status code of the response — the route has no 404
branch, so it is always 200. -/
def get_session_info (sessions : List (String × SessionRec))
    (session_id : String) :
    (Nat × SessionRec) × List (String × SessionRec) :=
  let r := get_session sessions session_id
  ((200, r.1), r.2)

/-- The parameter names accepted by PDFAgent.process_file_with_refinement
(pdf_agent.py lines 407-409), besides `self`. -/
def refinementAcceptedParams : List String :=
  ["input_file", "journal_style", "use_overleaf", "send_email", "trigger_n8n"]

/-- The keyword-argument names that process_refinement_conversion passes
to agent.process_file_with_refinement (app.py lines 751-758); the one
positional argument is the file path bound to `input_file`. -/
def refinementCallKwargNames : List String :=
  ["journal_style", "use_overleaf", "send_email", "trigger_n8n",
   "email_recipient"]

/-- Python keyword-argument binding for the call at app.py lines 751-758:
the call binds only when every passed keyword is a parameter of the
callee; otherwise the call raises TypeError before the callee's body
runs. -/
def refinementCallBinds : Bool :=
  refinementCallKwargNames.all (fun k => refinementAcceptedParams.contains k)

/-- Observable outcome of one process_refinement_conversion run. -/
structure RefinementConvOutcome where
  /-- terminal status written to the file entry and emitted -/
  status : JobState
  /-- an SMTP send was attempted somewhere in the run -/
  emailAttempted : Bool
  /-- the address an attempted send went to -/
  emailTo : Option String
deriving DecidableEq, Repr

/-- process_refinement_conversion (app.py lines 739-800): the background
task for `/api/convert-with-refinement`.  It calls
agent.process_file_with_refinement with the keyword arguments of
refinementCallKwargNames; if that call fails to bind (TypeError), the
surrounding except branch marks the job failed.  When the call binds, the
task marks the job completed or failed from the returned Boolean, and any
attempted email goes to the configured `to_email` (send_email has no
recipient parameter, so the `email_recipient` option value could never
reach it). -/
def process_refinement_conversion (cfg : Config) (fileExists : Bool)
    (olW : OverleafWorld) (runPandoc : List String → Bool)
    (smtpOk wh200 : Bool) (ext : String) (content : Option String)
    (llmOutput : Option String) (writeOk : Bool) (journal_style : String)
    (use_overleaf send_email_flag trigger_n8n_flag : Bool)
    (email_recipient : Option String) (refined_file output_file : String) :
    RefinementConvOutcome :=
  let _ := email_recipient
  if !refinementCallBinds then
    ⟨.failed, false, none⟩
  else
    let r := process_file_with_refinement cfg fileExists olW runPandoc smtpOk
      wh200 ext content llmOutput writeOk journal_style use_overleaf
      send_email_flag trigger_n8n_flag refined_file output_file
    match r.2 with
    | none => ⟨.failed, false, none⟩
    | some pr =>
      let attempted := match pr.emailResult with
        | some er => er.attemptedSend
        | none => false
      let target := match pr.emailResult with
        | some er => er.sentTo
        | none => none
      ⟨if r.1 then .completed else .failed, attempted, target⟩

end PdfAgent

open PdfAgent

/-- C1: for every single conversion request, whatever the outcome of the
background processing (returned true, returned false, or raised), the
sequence of distinct job states observed through the file's status field
and the emitted status events is a subsequence of
queued, processing, completed or of queued, processing, failed: processing
is never skipped before a terminal state, no earlier state is re-entered,
and no transition leaves a terminal state. -/
theorem C1_observed_state_sequence (result : Option Bool) :
    List.Sublist (dedupConsec (convert_file_trace result))
      [JobState.queued, JobState.processing, JobState.completed] ∨
    List.Sublist (dedupConsec (convert_file_trace result))
      [JobState.queued, JobState.processing, JobState.failed] := by
  match result with
  | some true => left; decide
  | some false => right; decide
  | none => right; decide

/-- C2: whenever style refinement was requested and the StyleRefiner call
fails (refine_academic_writing returns the error dictionary), the pipeline
run returns the failed outcome and process_file is never invoked, so no
pandoc or Overleaf conversion is attempted for that request. -/
theorem C2_refiner_failure_short_circuits (cfg : Config) (fileExists : Bool)
    (olW : OverleafWorld) (runPandoc : List String → Bool)
    (smtpOk wh200 : Bool) (ext original : String)
    (llmOutput : Option String) (writeOk : Bool) (journal_style : String)
    (use_overleaf send_email_flag trigger_n8n_flag : Bool)
    (refined_file output_file : String) (ft : FileType) (msg : String)
    (hdet : detect_file_type ext (some original) = some ft)
    (href : refine_academic_writing cfg.openai.api_key llmOutput original
      (ftString ft) journal_style = .err msg) :
    process_file_with_refinement cfg fileExists olW runPandoc smtpOk wh200
      ext (some original) llmOutput writeOk journal_style use_overleaf
      send_email_flag trigger_n8n_flag refined_file output_file
      = (false, none) := by
  simp only [process_file_with_refinement, hdet, href]

/-- Witness for C2: a concrete run (markdown file, no OpenAI key
configured, so the refiner reports the missing-credential error) on which
the short-circuit theorem applies and evaluates. -/
theorem C2_witness :
    detect_file_type ".md" (some "# Title") = some FileType.markdown ∧
    refine_academic_writing "" none "# Title" "markdown" "formal"
      = .err "OpenAI API key not configured" ∧
    process_file_with_refinement
      ⟨⟨"xelatex", none, ["--standalone", "--toc"]⟩,
       ⟨"https://www.overleaf.com/api/v1", "", ""⟩,
       ⟨"smtp.gmail.com", 587, "", "", "", ""⟩,
       ⟨"", ""⟩, ⟨"", "gpt-4o-mini", 0, 4000⟩⟩
      true ⟨true, true, true, true, true⟩ (fun _ => true) true true
      ".md" (some "# Title") none true "formal" false true true
      "refined_doc_formal.md" "output/doc_x.pdf" = (false, none) :=
  ⟨by decide, by decide,
    C2_refiner_failure_short_circuits
      ⟨⟨"xelatex", none, ["--standalone", "--toc"]⟩,
       ⟨"https://www.overleaf.com/api/v1", "", ""⟩,
       ⟨"smtp.gmail.com", 587, "", "", "", ""⟩,
       ⟨"", ""⟩, ⟨"", "gpt-4o-mini", 0, 4000⟩⟩
      true ⟨true, true, true, true, true⟩ (fun _ => true) true true
      ".md" "# Title" none true "formal" false true true
      "refined_doc_formal.md" "output/doc_x.pdf" FileType.markdown
      "OpenAI API key not configured" (by decide) (by decide)⟩

/-- C3 counterexample: with a template configured and a subprocess oracle
under which any pandoc command carrying `--template` fails while the same
command without it would succeed, convert_with_pandoc still reports
failure — the claimed template-stripped fallback attempt does not exist
in the code, so a render that fails only because of the template does not
complete. -/
theorem C3_counterexample :
    templateTruthy (PandocConfig.mk "xelatex" (some "ieee-template.tex")
        ["--standalone", "--toc"]).template = true ∧
    (fun c : List String => !(c.contains "--template"))
      (buildPandocCmd
        (PandocConfig.mk "xelatex" (some "ieee-template.tex")
          ["--standalone", "--toc"]) "paper.md" "output/paper.pdf") = false ∧
    (fun c : List String => !(c.contains "--template"))
      (buildPandocCmd
        (PandocConfig.mk "xelatex" none ["--standalone", "--toc"])
        "paper.md" "output/paper.pdf") = true ∧
    (convert_with_pandoc (fun c => !(c.contains "--template"))
      (PandocConfig.mk "xelatex" (some "ieee-template.tex")
        ["--standalone", "--toc"])
      "paper.md" "output/paper.pdf" "markdown").1 = false := by
  decide

/-- C3 amended: convert_with_pandoc invokes pandoc exactly once, with the
single command built from the configuration (template included when one
is configured), and when that invocation exits non-zero it reports
failure immediately — no fallback attempt is made. -/
theorem C3_single_invocation (run : List String → Bool) (cfg : PandocConfig)
    (input_file output_file file_type : String)
    (hfail : run (buildPandocCmd cfg input_file output_file) = false) :
    (convert_with_pandoc run cfg input_file output_file file_type).2
      = [buildPandocCmd cfg input_file output_file] ∧
    (convert_with_pandoc run cfg input_file output_file file_type).1 = false := by
  exact ⟨rfl, hfail⟩

/-- Witness for C3_single_invocation at a concrete failing oracle. -/
theorem C3_single_invocation_witness :
    (convert_with_pandoc (fun _ => false)
      (PandocConfig.mk "xelatex" (some "ieee-template.tex") ["--toc"])
      "a.md" "out/a.pdf" "markdown").2
      = [buildPandocCmd
          (PandocConfig.mk "xelatex" (some "ieee-template.tex") ["--toc"])
          "a.md" "out/a.pdf"] ∧
    (convert_with_pandoc (fun _ => false)
      (PandocConfig.mk "xelatex" (some "ieee-template.tex") ["--toc"])
      "a.md" "out/a.pdf" "markdown").1 = false :=
  C3_single_invocation (fun _ => false)
    (PandocConfig.mk "xelatex" (some "ieee-template.tex") ["--toc"])
    "a.md" "out/a.pdf" "markdown" rfl

/-- C4: an Overleaf configuration with no API key makes
convert_with_overleaf an immediate failure with no network call; and for
every latex-format request with use_overleaf set whose Overleaf sub-path
fails, process_file tries Overleaf first, unconditionally falls back to
pandoc, and succeeds exactly when the pandoc invocation does. -/
theorem C4_overleaf_fallback :
    (∀ (ocfg : OverleafConfig) (w : OverleafWorld), ocfg.api_key = "" →
      convert_with_overleaf ocfg w = (false, false)) ∧
    (∀ (cfg : Config) (olW : OverleafWorld) (runPandoc : List String → Bool)
      (smtpOk wh200 : Bool) (ext : String) (content : Option String)
      (send_email_flag trigger_n8n_flag : Bool) (input_file output_file : String),
      detect_file_type ext content = some FileType.latex →
      (convert_with_overleaf cfg.overleaf olW).1 = false →
      (process_file cfg true olW runPandoc smtpOk wh200 ext content true
          send_email_flag trigger_n8n_flag input_file output_file).overleafTried
        = true ∧
      (process_file cfg true olW runPandoc smtpOk wh200 ext content true
          send_email_flag trigger_n8n_flag input_file output_file).pandocTried
        = true ∧
      (process_file cfg true olW runPandoc smtpOk wh200 ext content true
          send_email_flag trigger_n8n_flag input_file output_file).success
        = runPandoc (buildPandocCmd cfg.pandoc input_file output_file)) := by
  constructor
  · intro ocfg w h
    simp [convert_with_overleaf, h]
  · intro cfg olW runPandoc smtpOk wh200 ext content se tn inF outF hdet hol
    simp only [process_file, hdet, renderPhase, hol, convert_with_pandoc,
      buildPandocCmd]
    cases hrp : runPandoc (buildPandocCmd cfg.pandoc inF outF) <;>
      simp_all [buildPandocCmd]

/-- Witness for C4: a concrete latex request with no Overleaf key and a
succeeding pandoc oracle, on which both conjuncts apply and the job
completes through the pandoc fallback. -/
theorem C4_witness :
    convert_with_overleaf ⟨"https://www.overleaf.com/api/v1", "", ""⟩
      ⟨true, true, true, true, true⟩ = (false, false) ∧
    (process_file
      ⟨⟨"xelatex", none, ["--standalone", "--toc"]⟩,
       ⟨"https://www.overleaf.com/api/v1", "", ""⟩,
       ⟨"smtp.gmail.com", 587, "", "", "", ""⟩,
       ⟨"", ""⟩, ⟨"", "gpt-4o-mini", 0, 4000⟩⟩
      true ⟨true, true, true, true, true⟩ (fun _ => true) true true
      ".tex" none true true true "doc.tex" "output/doc_x.pdf").success
      = true :=
  ⟨(C4_overleaf_fallback.1 ⟨"https://www.overleaf.com/api/v1", "", ""⟩
      ⟨true, true, true, true, true⟩ rfl),
   by
    have h := (C4_overleaf_fallback.2
      ⟨⟨"xelatex", none, ["--standalone", "--toc"]⟩,
       ⟨"https://www.overleaf.com/api/v1", "", ""⟩,
       ⟨"smtp.gmail.com", 587, "", "", "", ""⟩,
       ⟨"", ""⟩, ⟨"", "gpt-4o-mini", 0, 4000⟩⟩
      ⟨true, true, true, true, true⟩ (fun _ => true) true true
      ".tex" none true true "doc.tex" "output/doc_x.pdf"
      (by decide) (by decide)).2.2
    simpa using h⟩

/-- C5: whenever the render phase of a request succeeds, process_file
returns success no matter how the email and webhook deliveries turn out —
delivery failures never change the job's terminal outcome. -/
theorem C5_delivery_cannot_flip_outcome (cfg : Config) (olW : OverleafWorld)
    (runPandoc : List String → Bool) (ext : String) (content : Option String)
    (use_overleaf send_email_flag trigger_n8n_flag : Bool)
    (input_file output_file : String) (ft : FileType)
    (hdet : detect_file_type ext content = some ft)
    (hrender : (renderPhase cfg olW runPandoc ft use_overleaf input_file
      output_file).1 = true) :
    ∀ smtpOk wh200 : Bool,
      (process_file cfg true olW runPandoc smtpOk wh200 ext content
        use_overleaf send_email_flag trigger_n8n_flag input_file
        output_file).success = true := by
  intro smtpOk wh200
  simp [process_file, hdet, hrender]

/-- Witness for C5: a concrete markdown request whose pandoc run succeeds
while both the SMTP send and the webhook post fail; the job still ends in
success. -/
theorem C5_witness :
    (process_file
      ⟨⟨"xelatex", none, ["--standalone", "--toc"]⟩,
       ⟨"https://www.overleaf.com/api/v1", "", ""⟩,
       ⟨"smtp.gmail.com", 587, "user", "pw", "from@x.io", "to@x.io"⟩,
       ⟨"https://n8n.x.io/hook", ""⟩, ⟨"", "gpt-4o-mini", 0, 4000⟩⟩
      true ⟨true, true, true, true, true⟩ (fun _ => true) false false
      ".md" (some "# Title") false true true "doc.md"
      "output/doc_x.pdf").success = true :=
  C5_delivery_cannot_flip_outcome
    ⟨⟨"xelatex", none, ["--standalone", "--toc"]⟩,
     ⟨"https://www.overleaf.com/api/v1", "", ""⟩,
     ⟨"smtp.gmail.com", 587, "user", "pw", "from@x.io", "to@x.io"⟩,
     ⟨"https://n8n.x.io/hook", ""⟩, ⟨"", "gpt-4o-mini", 0, 4000⟩⟩
    ⟨true, true, true, true, true⟩ (fun _ => true) ".md" (some "# Title")
    false true true "doc.md" "output/doc_x.pdf" FileType.markdown
    (by decide) (by decide) false false

/-- C6 counterexample: with the username missing from an otherwise
complete email configuration, send_email raises no fault and attempts no
send, but the value it returns is False — the same value a failed send
returns — not a success-with-warning. -/
theorem C6_counterexample :
    emailConfigComplete
      (EmailConfig.mk "smtp.gmail.com" 587 "" "secret" "from@x.io" "to@x.io")
      = false ∧
    (send_email
      (EmailConfig.mk "smtp.gmail.com" 587 "" "secret" "from@x.io" "to@x.io")
      true).raised = false ∧
    (send_email
      (EmailConfig.mk "smtp.gmail.com" 587 "" "secret" "from@x.io" "to@x.io")
      true).attemptedSend = false ∧
    ¬ ((send_email
      (EmailConfig.mk "smtp.gmail.com" 587 "" "secret" "from@x.io" "to@x.io")
      true).returned = true) := by
  decide

/-- C6 amended: with any of username, password or destination address
absent, send_email is a no-op that raises no fault and returns False
after logging a warning; with no webhook URL configured,
trigger_n8n_workflow likewise posts nothing, raises no fault and returns
False. -/
theorem C6_missing_config_noop :
    (∀ (cfg : EmailConfig) (smtpOk : Bool), emailConfigComplete cfg = false →
      send_email cfg smtpOk = ⟨false, false, none, false⟩) ∧
    (∀ (ncfg : N8nConfig) (status200 : Bool), ncfg.webhook_url = "" →
      trigger_n8n_workflow ncfg status200 = ⟨false, false, false⟩) := by
  constructor
  · intro cfg smtpOk h
    simp [send_email, h]
  · intro ncfg status200 h
    simp [trigger_n8n_workflow, h]

/-- Witness for C6_missing_config_noop at a concrete configuration with a
missing password and a missing webhook URL. -/
theorem C6_missing_config_noop_witness :
    send_email (EmailConfig.mk "smtp.gmail.com" 587 "user" "" "f@x.io" "t@x.io")
      true = ⟨false, false, none, false⟩ ∧
    trigger_n8n_workflow (N8nConfig.mk "" "key") true = ⟨false, false, false⟩ :=
  ⟨C6_missing_config_noop.1
      (EmailConfig.mk "smtp.gmail.com" 587 "user" "" "f@x.io" "t@x.io")
      true (by decide),
   C6_missing_config_noop.2 (N8nConfig.mk "" "key") true rfl⟩

/-- C7: a journal style outside the six enumerated ones selects the
formal prompt profile, and with a configured API key and a completing
model call the refinement proceeds with that formal profile instead of
failing. -/
theorem C7_unknown_style_uses_formal (journal_style api_key t content
    file_type : String)
    (hs : journal_style ∉ ["formal", "ieee", "acm", "springer", "elsevier",
      "nature"])
    (hkey : api_key ≠ "") :
    selectedStyleProfile journal_style = StyleProfile.formal ∧
    refine_academic_writing api_key (some t) content file_type journal_style
      = .ok StyleProfile.formal t journal_style := by
  simp only [List.mem_cons, List.mem_singleton, not_or] at hs
  obtain ⟨h1, h2, h3, h4, h5, h6, -⟩ := hs
  have b1 : (journal_style == "formal") = false := beq_eq_false_iff_ne.mpr h1
  have b2 : (journal_style == "ieee") = false := beq_eq_false_iff_ne.mpr h2
  have b3 : (journal_style == "acm") = false := beq_eq_false_iff_ne.mpr h3
  have b4 : (journal_style == "springer") = false := beq_eq_false_iff_ne.mpr h4
  have b5 : (journal_style == "elsevier") = false := beq_eq_false_iff_ne.mpr h5
  have b6 : (journal_style == "nature") = false := beq_eq_false_iff_ne.mpr h6
  have hsel : selectedStyleProfile journal_style = StyleProfile.formal := by
    simp [selectedStyleProfile, style_prompts, List.lookup, b1, b2, b3, b4,
      b5, b6]
  have hb : (api_key == "") = false := beq_eq_false_iff_ne.mpr hkey
  exact ⟨hsel, by simp [refine_academic_writing, hb, hsel]⟩

/-- Witness for C7 at the spec's own scenario, journal style "xyz". -/
theorem C7_witness :
    selectedStyleProfile "xyz" = StyleProfile.formal ∧
    refine_academic_writing "sk-test" (some "Refined text.") "Original."
      "markdown" "xyz" = .ok StyleProfile.formal "Refined text." "xyz" :=
  C7_unknown_style_uses_formal "xyz" "sk-test" "Refined text." "Original."
    "markdown" (by decide) (by decide)

/-- C8 counterexample: looking up an id absent from the session table via
the `/api/session/<session_id>` route answers HTTP 200 with a freshly
created session, not a NotFound, and the table afterwards holds new
state. -/
theorem C8_counterexample :
    List.lookup "unknown-id" ([] : List (String × SessionRec)) = none ∧
    (get_session_info [] "unknown-id").1.1 = 200 ∧
    ¬ ((get_session_info [] "unknown-id").1.1 = 404) ∧
    ¬ ((get_session_info ([] : List (String × SessionRec)) "unknown-id").2
      = []) := by
  decide

/-- Helper: a key absent from the front part of an association list is
resolved by the back part. -/
theorem lookup_append_of_none (sid : String)
    (l₁ l₂ : List (String × SessionRec)) (h : l₁.lookup sid = none) :
    (l₁ ++ l₂).lookup sid = l₂.lookup sid := by
  induction l₁ with
  | nil => simp
  | cons p t ih =>
    obtain ⟨k, v⟩ := p
    by_cases hk : (sid == k) = true
    · simp [List.lookup, hk] at h
    · have hk' : (sid == k) = false := by simpa using hk
      simp only [List.cons_append, List.lookup, hk'] at h ⊢
      exact ih h

/-- C8 amended: querying an id not present in the session table creates a
fresh active session under that id, returns it with HTTP 200, and the
updated table resolves the id to that fresh session. -/
theorem C8_unknown_id_creates_session
    (sessions : List (String × SessionRec)) (session_id : String)
    (h : sessions.lookup session_id = none) :
    get_session_info sessions session_id
      = ((200, freshSession session_id),
         sessions ++ [(session_id, freshSession session_id)]) ∧
    ((get_session_info sessions session_id).2).lookup session_id
      = some (freshSession session_id) := by
  have hmain : get_session_info sessions session_id
      = ((200, freshSession session_id),
         sessions ++ [(session_id, freshSession session_id)]) := by
    simp [get_session_info, get_session, h]
  refine ⟨hmain, ?_⟩
  rw [hmain]
  show (sessions ++ [(session_id, freshSession session_id)]).lookup session_id
    = some (freshSession session_id)
  rw [lookup_append_of_none session_id sessions _ h]
  simp [List.lookup]

/-- Witness for C8_unknown_id_creates_session at an empty table. -/
theorem C8_unknown_id_creates_session_witness :
    get_session_info ([] : List (String × SessionRec)) "abc"
      = ((200, freshSession "abc"), [("abc", freshSession "abc")]) ∧
    ((get_session_info ([] : List (String × SessionRec)) "abc").2).lookup "abc"
      = some (freshSession "abc") := by
  simpa using C8_unknown_id_creates_session [] "abc" rfl

/-- C9: the background task for `/api/convert-with-refinement` always
passes the keyword argument `email_recipient`, which
PDFAgent.process_file_with_refinement does not accept, so the call never
binds: for every request — whatever options it supplies, and in
particular whenever it supplies an emailRecipient — the task raises
TypeError inside its try block, the job is marked failed, and no email is
sent to any address. -/
theorem C9_email_recipient_type_error (cfg : Config) (fileExists : Bool)
    (olW : OverleafWorld) (runPandoc : List String → Bool)
    (smtpOk wh200 : Bool) (ext : String) (content llmOutput : Option String)
    (writeOk : Bool) (journal_style : String)
    (use_overleaf send_email_flag trigger_n8n_flag : Bool)
    (email_recipient : Option String) (refined_file output_file : String) :
    refinementCallBinds = false ∧
    process_refinement_conversion cfg fileExists olW runPandoc smtpOk wh200
      ext content llmOutput writeOk journal_style use_overleaf
      send_email_flag trigger_n8n_flag email_recipient refined_file
      output_file = ⟨JobState.failed, false, none⟩ := by
  have hb : refinementCallBinds = false := by decide
  exact ⟨hb, by simp [process_refinement_conversion, hb]⟩

/-- C10: format detection gives the extension priority over content — a
.tex/.latex suffix (case-folded) yields latex and a .md/.markdown suffix
yields markdown regardless of content; for any other extension the first
1000 characters decide: a documentclass or begin-document marker yields
latex, else a leading hash or a double-hash occurrence yields markdown,
else no format is detected; and a file with no detected format makes
process_file fail without attempting any conversion or delivery. -/
theorem C10_format_detection :
    (∀ (ext : String) (content : Option String),
      strLower ext ∈ [".tex".toList, ".latex".toList] →
      detect_file_type ext content = some FileType.latex) ∧
    (∀ (ext : String) (content : Option String),
      strLower ext ∈ [".md".toList, ".markdown".toList] →
      detect_file_type ext content = some FileType.markdown) ∧
    (∀ (ext full : String),
      strLower ext ∉ [".tex".toList, ".latex".toList] →
      strLower ext ∉ [".md".toList, ".markdown".toList] →
      (hasLatexMarker full = true →
        detect_file_type ext (some full) = some FileType.latex) ∧
      (hasLatexMarker full = false → hasMarkdownMarker full = true →
        detect_file_type ext (some full) = some FileType.markdown) ∧
      (hasLatexMarker full = false → hasMarkdownMarker full = false →
        detect_file_type ext (some full) = none)) ∧
    (∀ (cfg : Config) (olW : OverleafWorld) (runPandoc : List String → Bool)
      (smtpOk wh200 : Bool) (ext : String) (content : Option String)
      (use_overleaf send_email_flag trigger_n8n_flag : Bool)
      (input_file output_file : String),
      detect_file_type ext content = none →
      process_file cfg true olW runPandoc smtpOk wh200 ext content
        use_overleaf send_email_flag trigger_n8n_flag input_file output_file
        = ⟨false, false, false, none, none⟩) := by
  refine ⟨?_, ?_, ?_, ?_⟩
  · intro ext content h
    simp only [detect_file_type]
    rw [if_pos h]
  · intro ext content h
    have h1 : strLower ext ∉ [".tex".toList, ".latex".toList] := by
      simp only [List.mem_cons, List.not_mem_nil, or_false] at h ⊢
      rcases h with h | h <;> rw [h] <;> decide
    simp only [detect_file_type]
    rw [if_neg h1, if_pos h]
  · intro ext full h1 h2
    refine ⟨?_, ?_, ?_⟩
    · intro hla
      simp only [detect_file_type]
      rw [if_neg h1, if_neg h2]
      simp [hla]
    · intro hla hmd
      simp only [detect_file_type]
      rw [if_neg h1, if_neg h2]
      simp [hla, hmd]
    · intro hla hmd
      simp only [detect_file_type]
      rw [if_neg h1, if_neg h2]
      simp [hla, hmd]
  · intro cfg olW runPandoc smtpOk wh200 ext content uo se tn inF outF h
    simp [process_file, h]

/-- Witness for C10 at concrete files: a .TeX extension overrides
markdown-looking content, a .md extension needs no readable content, an
unknown extension falls back to the content markers, and an undetectable
file makes process_file give up with no conversion attempt. -/
theorem C10_witness :
    detect_file_type ".TeX" (some "# looks like markdown")
      = some FileType.latex ∧
    detect_file_type ".md" none = some FileType.markdown ∧
    detect_file_type ".txt" (some "x \\documentclass y")
      = some FileType.latex ∧
    detect_file_type ".txt" (some "## section") = some FileType.markdown ∧
    detect_file_type ".txt" (some "plain words") = none ∧
    process_file
      ⟨⟨"xelatex", none, ["--standalone", "--toc"]⟩,
       ⟨"https://www.overleaf.com/api/v1", "", ""⟩,
       ⟨"smtp.gmail.com", 587, "", "", "", ""⟩,
       ⟨"", ""⟩, ⟨"", "gpt-4o-mini", 0, 4000⟩⟩
      true ⟨true, true, true, true, true⟩ (fun _ => true) true true
      ".txt" (some "plain words") false true true "notes.txt"
      "output/notes_x.pdf" = ⟨false, false, false, none, none⟩ :=
  ⟨C10_format_detection.1 ".TeX" (some "# looks like markdown") (by decide),
   C10_format_detection.2.1 ".md" none (by decide),
   (C10_format_detection.2.2.1 ".txt" "x \\documentclass y"
      (by decide) (by decide)).1 (by decide),
   (C10_format_detection.2.2.1 ".txt" "## section"
      (by decide) (by decide)).2.1 (by decide) (by decide),
   (C10_format_detection.2.2.1 ".txt" "plain words"
      (by decide) (by decide)).2.2 (by decide) (by decide),
   C10_format_detection.2.2.2
     ⟨⟨"xelatex", none, ["--standalone", "--toc"]⟩,
      ⟨"https://www.overleaf.com/api/v1", "", ""⟩,
      ⟨"smtp.gmail.com", 587, "", "", "", ""⟩,
      ⟨"", ""⟩, ⟨"", "gpt-4o-mini", 0, 4000⟩⟩
     ⟨true, true, true, true, true⟩ (fun _ => true) true true
     ".txt" (some "plain words") false true true "notes.txt"
     "output/notes_x.pdf" (by decide)⟩

